import Mathlib

/-!
Verification of the Gmail/Calendar MCP adapter (`server.py`).

The file shallowly embeds the data model and the seven top-level Python
functions of the source: `get_credentials`, `get_gmail_service`,
`get_calendar_service`, `send_email`, `list_events`, `create_event`,
`search_emails`, `get_email_content` and the resource `get_emails`.

Modelling conventions:
  * A Python value returned from an external call that may raise is an
    `Except String A`; the string is the text of the exception.
  * The dict a tool handler returns is `PyDict`, a record with two
    optional string fields; the source only ever populates one of them.
  * Bytes are `Nat` below 256; byte strings are `List Nat`.
  * The Python standard library pieces the handlers lean on
    (`base64.urlsafe_b64encode` and `b64decode`, `str.encode` and
    `bytes.decode`, `str.join`, `email.mime.text.MIMEText` flattening)
    are implemented here over those representations, faithful to their
    documented behaviour on the inputs the handlers produce.
-/

namespace GmailMcp

/-- The dict a tool handler returns: the source builds either
a result-keyed literal or an error-keyed literal, so each
field is optional here and the claims quantify over the shape. -/
structure PyDict where
  result : Option String
  error : Option String
  deriving Repr, DecidableEq

/-- The result-keyed envelope literal of the source. -/
def PyDict.mkResult (s : String) : PyDict := ⟨some s, none⟩

/-- The error-keyed envelope literal of the source. -/
def PyDict.mkError (s : String) : PyDict := ⟨none, some s⟩

/-- Exactly one of the two fields is populated. -/
def PyDict.exactlyOne (d : PyDict) : Prop :=
  (d.result.isSome ∧ d.error = none) ∨ (d.result = none ∧ d.error.isSome)

instance (d : PyDict) : Decidable d.exactlyOne := by
  unfold PyDict.exactlyOne; infer_instance

/-! ## base64url (RFC 4648 URL-safe alphabet, `base64.urlsafe_b64encode`) -/

/-- The URL-safe base64 alphabet used by the Python `base64.urlsafe_b64encode`. -/
def b64Alphabet : List Char :=
  "ABCDEFGHIJKLMNOPQRSTUVWXYZabcdefghijklmnopqrstuvwxyz0123456789-_".data

/-- Character for a sextet value. -/
def b64SixChar (n : Nat) : Char := b64Alphabet.getD n 'A'

/-- Position of a character in a list, as an option. -/
def charIndex (c : Char) : List Char → Option Nat
  | [] => none
  | x :: xs => if x = c then some 0 else (charIndex c xs).map (· + 1)

/-- Sextet value of an alphabet character. -/
def b64Val (c : Char) : Option Nat := charIndex c b64Alphabet

/-- Python `base64.urlsafe_b64encode` on a byte string: three bytes map to four
alphabet characters, a trailing group of one or two bytes is padded
with the `=` character. -/
def b64urlEncode : List Nat → List Char
  | [] => []
  | [b1] => [b64SixChar (b1 / 4), b64SixChar (b1 % 4 * 16), '=', '=']
  | [b1, b2] =>
      [b64SixChar (b1 / 4), b64SixChar (b1 % 4 * 16 + b2 / 16),
       b64SixChar (b2 % 16 * 4), '=']
  | b1 :: b2 :: b3 :: rest =>
      b64SixChar (b1 / 4) :: b64SixChar (b1 % 4 * 16 + b2 / 16) ::
      b64SixChar (b2 % 16 * 4 + b3 / 64) :: b64SixChar (b3 % 64) ::
      b64urlEncode rest

/-- Python `base64.urlsafe_b64decode`: groups of four characters back to bytes,
honouring terminal `=` padding; `none` models the decoding exception.
The model is stricter than the Python default, which silently discards
characters outside the alphabet before decoding; the two agree on
alphabet-only input, and every theorem below conditions on a successful
model decode, where they coincide. -/
def b64urlDecode : List Char → Option (List Nat)
  | [] => some []
  | c1 :: c2 :: c3 :: c4 :: rest =>
      match b64Val c1, b64Val c2 with
      | some v1, some v2 =>
          if c3 = '=' ∧ c4 = '=' ∧ rest = [] then
            some [v1 * 4 + v2 / 16]
          else
            match b64Val c3 with
            | some v3 =>
                if c4 = '=' ∧ rest = [] then
                  some [v1 * 4 + v2 / 16, v2 % 16 * 16 + v3 / 4]
                else
                  match b64Val c4, b64urlDecode rest with
                  | some v4, some bs =>
                      some ((v1 * 4 + v2 / 16) :: (v2 % 16 * 16 + v3 / 4) ::
                            (v3 % 4 * 64 + v4) :: bs)
                  | _, _ => none
            | none => none
      | _, _ => none
  | _ => none

/-! ## Byte strings and text (`str.encode` / `bytes.decode`) -/

/-- Bytes of an ASCII string (`str.encode` on the inputs the adapter
produces; the adapter only ever encodes ASCII payloads, see
`mimeAsBytes`). -/
def strBytes (s : String) : List Nat := s.data.map Char.toNat

/-- Every character of the string is ASCII. -/
def asciiStr (s : String) : Prop := ∀ c ∈ s.data, c.toNat < 128

instance (s : String) : Decidable (asciiStr s) := by
  unfold asciiStr; infer_instance

/-- Continuation byte test of the UTF-8 decoder. -/
def utf8Cont (b : Nat) : Bool := decide (0x80 ≤ b) && decide (b < 0xC0)

/-- Code point of a two-byte UTF-8 sequence. -/
def utf8Cp2 (b b2 : Nat) : Nat := (b - 0xC0) * 64 + (b2 - 0x80)

/-- Code point of a three-byte UTF-8 sequence. -/
def utf8Cp3 (b b2 b3 : Nat) : Nat :=
  (b - 0xE0) * 4096 + (b2 - 0x80) * 64 + (b3 - 0x80)

/-- Code point of a four-byte UTF-8 sequence. -/
def utf8Cp4 (b b2 b3 b4 : Nat) : Nat :=
  (b - 0xF0) * 262144 + (b2 - 0x80) * 4096 + (b3 - 0x80) * 64 + (b4 - 0x80)

/-- Three-byte code points UTF-8 rejects: overlong or surrogate. -/
def utf8Bad3 (cp : Nat) : Bool :=
  decide (cp < 0x800) || (decide (0xD800 ≤ cp) && decide (cp < 0xE000))

/-- Four-byte code points UTF-8 rejects: overlong or beyond Unicode. -/
def utf8Bad4 (cp : Nat) : Bool := decide (cp < 0x10000) || decide (0x10FFFF < cp)

/-- UTF-8 decoding worker. The fuel argument only drives the structural
recursion; every step consumes at least one byte, so fuel equal to the
byte count (as supplied by `utf8Decode`) never runs out. -/
def utf8DecodeAux : Nat → List Nat → Option (List Char)
  | _, [] => some []
  | 0, _ :: _ => none
  | fuel + 1, b :: rest =>
    if b < 0x80 then (utf8DecodeAux fuel rest).map (Char.ofNat b :: ·)
    else if b < 0xC2 then none
    else if b < 0xE0 then
      match rest with
      | b2 :: rest2 =>
          if utf8Cont b2 then
            (utf8DecodeAux fuel rest2).map (Char.ofNat (utf8Cp2 b b2) :: ·)
          else none
      | [] => none
    else if b < 0xF0 then
      match rest with
      | b2 :: b3 :: rest3 =>
          if utf8Cont b2 && utf8Cont b3 && !utf8Bad3 (utf8Cp3 b b2 b3) then
            (utf8DecodeAux fuel rest3).map (Char.ofNat (utf8Cp3 b b2 b3) :: ·)
          else none
      | _ => none
    else if b < 0xF5 then
      match rest with
      | b2 :: b3 :: b4 :: rest4 =>
          if utf8Cont b2 && utf8Cont b3 && utf8Cont b4 &&
             !utf8Bad4 (utf8Cp4 b b2 b3 b4) then
            (utf8DecodeAux fuel rest4).map (Char.ofNat (utf8Cp4 b b2 b3 b4) :: ·)
          else none
      | _ => none
    else none

/-- Python `bytes.decode()` (UTF-8): `none` models `UnicodeDecodeError`.
Rejects stray continuation bytes, truncated sequences, overlong
encodings, surrogate code points and values above U+10FFFF. -/
def utf8Decode (bs : List Nat) : Option (List Char) := utf8DecodeAux bs.length bs

/-- Python `sep.join(xs)`. -/
def pyJoin (sep : String) : List String → String
  | [] => ""
  | [x] => x
  | x :: xs => x ++ sep ++ pyJoin sep xs

/-- Python f-string rendering of an optional value: `None` prints as
the literal text None. -/
def pyStrOpt (o : Option String) : String := o.getD "None"

/-! ## MIME message (`email.mime.text.MIMEText`)

`MIMEText(body)` followed by `message[to] = ...`, `message[subject] = ...`
and `as_bytes()` flattens, with the default compat32 policy, to the three
implicit headers in insertion order, then the two explicit headers, a
blank line, and the payload, each line terminated by a line feed.

The flattening below models the ASCII, unfolded fragment of the library:
the compat32 generator folds a header line longer than 78 characters
onto continuation lines, and non-ASCII content never raises but is
re-encoded (utf-8 charset with base64 transfer encoding for the body,
RFC 2047 encoded words for headers). Outside that fragment the model is
only a stand-in, and every theorem about the flattening restricts its
hypotheses to the fragment: ASCII text, single-line header values, the
`to:` line at most 78 characters (recipient at most 74) and the
`subject:` line at most 78 characters (subject at most 69). -/

/-- The fixed flattened prefix up to and including the name of the first
explicit header. -/
def mimeHeaderBlock : String :=
  "Content-Type: text/plain; charset=\"us-ascii\"\nMIME-Version: 1.0\nContent-Transfer-Encoding: 7bit\nto: "

/-- Flattened form of the message built by `send_email`, on the ASCII
unfolded fragment described in the section comment. -/
def mimeAsString (recipient subject body : String) : String :=
  mimeHeaderBlock ++ recipient ++ "\nsubject: " ++ subject ++ "\n\n" ++ body

/-- Drop an expected leading character sequence. -/
def stripLeading : List Char → List Char → Option (List Char)
  | [], l => some l
  | _ :: _, [] => none
  | p :: ps, c :: cs => if p = c then stripLeading ps cs else none

/-- Split off everything before the first line feed. -/
def takeLine : List Char → Option (List Char × List Char)
  | [] => none
  | c :: cs =>
    if c = '\n' then some ([], cs)
    else
      match takeLine cs with
      | some (l, r) => some (c :: l, r)
      | none => none

/-- Parse a flattened message of the shape `send_email` builds back into
its recipient, subject and body. -/
def parseMessage (s : String) : Option (String × String × String) :=
  match stripLeading mimeHeaderBlock.data s.data with
  | none => none
  | some r1 =>
    match takeLine r1 with
    | none => none
    | some (recipChars, r2) =>
      match stripLeading "subject: ".data r2 with
      | none => none
      | some r3 =>
        match takeLine r3 with
        | none => none
        | some (subjChars, r4) =>
          match r4 with
          | '\n' :: bodyChars => some (⟨recipChars⟩, ⟨subjChars⟩, ⟨bodyChars⟩)
          | _ => none

/-! ## Provider data model -/

/-- One entry of `email[payload][headers]`. -/
structure Header where
  name : String
  value : String
  deriving Repr, DecidableEq

/-- A `body` object of a message or part: the `data` key is optional. -/
structure PartBody where
  data : Option String
  deriving Repr, DecidableEq

/-- One entry of `email[payload][parts]`. -/
structure Part where
  body : PartBody
  deriving Repr, DecidableEq

/-- Model of `email[payload]`: the `parts` key may be absent. -/
structure Payload where
  headers : List Header
  parts : Option (List Part)
  body : PartBody
  deriving Repr, DecidableEq

/-- A fetched message. -/
structure Email where
  payload : Payload
  deriving Repr, DecidableEq

/-- One entry of the messages list response. -/
structure MsgRef where
  id : String
  deriving Repr, DecidableEq

/-- Response of the mail send call. -/
structure SendResponse where
  id : String
  deriving Repr, DecidableEq

/-- Model of `event[start]`: both time keys are optional. -/
structure EventTime where
  dateTime : Option String
  date : Option String
  deriving Repr, DecidableEq

/-- A listed calendar event; the `summary` key may be absent, which the
source does not guard against. -/
structure CalEvent where
  summary : Option String
  start : EventTime
  deriving Repr, DecidableEq

/-- One endpoint of the event body built by `create_event`. -/
structure EventTimeSpec where
  dateTime : String
  timeZone : String
  deriving Repr, DecidableEq

/-- The event body `create_event` submits; `endSpec` embeds the Python
dict key named end. -/
structure EventBody where
  summary : String
  description : String
  start : EventTimeSpec
  endSpec : EventTimeSpec
  deriving Repr, DecidableEq

/-- Response of the event insert call; `htmlLink` is read with `.get`. -/
structure InsertResponse where
  htmlLink : Option String
  deriving Repr, DecidableEq

/-- Python `next((h[value] for h in headers if h[name] == n), dflt)`. -/
def findHeader (hs : List Header) (n dflt : String) : String :=
  match hs.find? (fun h => h.name == n) with
  | some h => h.value
  | none => dflt

/-! ## Credential manager (`get_credentials`) -/

/-- The persisted credential record. `valid` is not stored: the
google-auth library derives it (modelled by `Creds.valid`). -/
structure Creds where
  token : Option String
  expired : Bool
  refresh_token : Option String
  deriving Repr, DecidableEq

/-- Modelled from the library the source imports: credentials are valid
when a token is present and not expired. -/
def Creds.valid (c : Creds) : Bool := c.token.isSome && !c.expired

/-- Python truthiness of an optional string: `None` and the empty
string are falsy. -/
def pyTruthy : Option String → Bool
  | none => false
  | some s => !(s = "")

/-- Outcome of `get_credentials`: the returned credentials or the
escaping exception, the final content of the token.pickle store, and
how many times refresh and the interactive flow ran. -/
structure AcquireResult where
  creds : Except String Creds
  store : Option Creds
  refreshCalls : Nat
  flowCalls : Nat
  deriving Repr

/-- Embeds `get_credentials`, with the token.pickle content, the refresh call
and the interactive flow passed explicitly. -/
def get_credentials (store : Option Creds)
    (refreshFn : Creds → Except String Creds)
    (flowRun : Except String Creds) : AcquireResult :=
  match store with
  | none =>
      match flowRun with
      | .error e => ⟨.error e, store, 0, 1⟩
      | .ok c => ⟨.ok c, some c, 0, 1⟩
  | some creds =>
      if !creds.valid then
        if creds.expired && pyTruthy creds.refresh_token then
          match refreshFn creds with
          | .error e => ⟨.error e, store, 1, 0⟩
          | .ok c => ⟨.ok c, some c, 1, 0⟩
        else
          match flowRun with
          | .error e => ⟨.error e, store, 0, 1⟩
          | .ok c => ⟨.ok c, some c, 0, 1⟩
      else ⟨.ok creds, store, 0, 0⟩

/-- Embeds `get_gmail_service`: acquires credentials and builds the client;
the build step itself performs no network call, so the only failure is
the one escaping `get_credentials`. -/
def get_gmail_service (acq : AcquireResult) : Except String Unit :=
  match acq.creds with
  | .error e => .error e
  | .ok _ => .ok ()

/-- Embeds `get_calendar_service`: same acquisition path as the mail service. -/
def get_calendar_service (acq : AcquireResult) : Except String Unit :=
  match acq.creds with
  | .error e => .error e
  | .ok _ => .ok ()

/-! ## Tool handlers -/

/-- Embeds `send_email`: the provider send call receives the base64url-encoded
flattened message and may raise; the flattening itself never raises
(see the MIME section comment). -/
def send_email (recipient subject body : String) (acq : AcquireResult)
    (send : List Char → Except String SendResponse) : PyDict :=
  match get_gmail_service acq with
  | .error e => .mkError e
  | .ok _ =>
    match send (b64urlEncode (strBytes (mimeAsString recipient subject body))) with
    | .error e => .mkError e
    | .ok resp =>
        .mkResult ("Email sent successfully (Message ID: " ++ resp.id ++ ")")

/-- The per-message block of `search_emails`. -/
def searchBlock (i : String) (e : Email) : String :=
  "ID: " ++ i ++ "\nFrom: " ++ findHeader e.payload.headers "From" "Unknown" ++
  "\nSubject: " ++ findHeader e.payload.headers "Subject" "No Subject" ++ "\n---"

/-- The per-message block of the `get_emails` resource. -/
def inboxBlock (e : Email) : String :=
  "From: " ++ findHeader e.payload.headers "From" "Unknown" ++
  "\nSubject: " ++ findHeader e.payload.headers "Subject" "No Subject" ++ "\n---"

/-- The fetch loop shared in shape by `search_emails` and `get_emails`:
each listed id is fetched in order and formatted; the first provider
exception aborts the loop. -/
def fetchLoop (blockOf : MsgRef → Email → String)
    (getMsg : String → Except String Email) :
    List MsgRef → Except String (List String)
  | [] => .ok []
  | r :: rs =>
      match getMsg r.id with
      | .error e => .error e
      | .ok em =>
          match fetchLoop blockOf getMsg rs with
          | .error e => .error e
          | .ok blocks => .ok (blockOf r em :: blocks)

/-- Embeds `search_emails`. -/
def search_emails (query : String) (max_results : Nat) (acq : AcquireResult)
    (listCall : String → Nat → Except String (List MsgRef))
    (getMsg : String → Except String Email) : PyDict :=
  match get_gmail_service acq with
  | .error e => .mkError e
  | .ok _ =>
    match listCall query max_results with
    | .error e => .mkError e
    | .ok refs =>
      match fetchLoop (fun r em => searchBlock r.id em) getMsg refs with
      | .error e => .mkError e
      | .ok blocks =>
          .mkResult (if blocks.isEmpty then "No emails found" else pyJoin "\n" blocks)

/-- Body location selection of `get_email_content`: first part when a
`parts` key is present (an empty parts list raises an index error),
else the top-level body; a missing `data` key defaults to the empty
string. -/
def contentOf (p : Payload) : Except String String :=
  match p.parts with
  | some ps =>
      match ps with
      | [] => .error "list index out of range"
      | q :: _ => .ok (q.body.data.getD "")
  | none => .ok (p.body.data.getD "")

/-- Python `base64.urlsafe_b64decode(content).decode() if content else ...`:
the empty selected content short-circuits to the placeholder, anything
else is base64url-decoded then UTF-8-decoded, either step raising. -/
def decodedContent (content : String) : Except String String :=
  if content = "" then .ok "No content"
  else
    match b64urlDecode content.data with
    | none => .error "binascii.Error"
    | some bs =>
        match utf8Decode bs with
        | none => .error "UnicodeDecodeError"
        | some cs => .ok ⟨cs⟩

/-- The header portion of the `get_email_content` result string. -/
def emailHeaderText (em : Email) : String :=
  "From: " ++ findHeader em.payload.headers "From" "Unknown" ++
  "\nSubject: " ++ findHeader em.payload.headers "Subject" "No Subject" ++
  "\n\nContent:\n"

/-- Embeds `get_email_content`. -/
def get_email_content (email_id : String) (acq : AcquireResult)
    (getMsg : String → Except String Email) : PyDict :=
  match get_gmail_service acq with
  | .error e => .mkError e
  | .ok _ =>
    match getMsg email_id with
    | .error e => .mkError e
    | .ok em =>
      match contentOf em.payload with
      | .error e => .mkError e
      | .ok content =>
        match decodedContent content with
        | .error e => .mkError e
        | .ok txt => .mkResult (emailHeaderText em ++ txt)

/-- Models `event[start].get(dateTime, event[start].get(date))`, rendered
through the f-string: a missing precise time falls back to the all-day
date, and if both are missing the f-string prints None. -/
def eventStart (t : EventTime) : String :=
  match t.dateTime with
  | some d => d
  | none =>
      match t.date with
      | some d => d
      | none => "None"

/-- The per-event block of `list_events`. -/
def eventBlock (s : String) (t : EventTime) : String :=
  "Event: " ++ s ++ "\nTime: " ++ eventStart t ++ "\n---"

/-- The event loop of `list_events`: `event[summary]` is an unguarded
subscript, so a missing summary raises a key error that aborts the
whole loop (the Lean error text stands in for the Python rendering of
the KeyError). -/
def formatEvents : List CalEvent → Except String (List String)
  | [] => .ok []
  | e :: es =>
      match e.summary with
      | none => .error "KeyError: summary"
      | some s =>
          match formatEvents es with
          | .error msg => .error msg
          | .ok blocks => .ok (eventBlock s e.start :: blocks)

/-- Embeds `list_events`. -/
def list_events (max_results : Nat) (acq : AcquireResult)
    (listCall : Nat → Except String (List CalEvent)) : PyDict :=
  match get_calendar_service acq with
  | .error e => .mkError e
  | .ok _ =>
    match listCall max_results with
    | .error e => .mkError e
    | .ok events =>
        if events.isEmpty then .mkResult "No upcoming events found"
        else
          match formatEvents events with
          | .error e => .mkError e
          | .ok blocks => .mkResult (pyJoin "\n" blocks)

/-- The event dict literal `create_event` builds. -/
def eventBodyOf (summary start_time end_time description : String) : EventBody :=
  ⟨summary, description, ⟨start_time, "UTC"⟩, ⟨end_time, "UTC"⟩⟩

/-- Embeds `create_event`: the insert call receives the calendar id and the
event body; the source always passes the primary calendar. -/
def create_event (summary start_time end_time description : String)
    (acq : AcquireResult)
    (insert : String → EventBody → Except String InsertResponse) : PyDict :=
  match get_calendar_service acq with
  | .error e => .mkError e
  | .ok _ =>
    match insert "primary" (eventBodyOf summary start_time end_time description) with
    | .error e => .mkError e
    | .ok r => .mkResult ("Event created: " ++ pyStrOpt r.htmlLink)

/-- The `get_emails` inbox resource: returns a plain string, and on a
caught exception returns the bare message text. -/
def get_emails (acq : AcquireResult)
    (listCall : Nat → Except String (List MsgRef))
    (getMsg : String → Except String Email) : String :=
  match get_gmail_service acq with
  | .error e => e
  | .ok _ =>
    match listCall 10 with
    | .error e => e
    | .ok refs =>
      match fetchLoop (fun _ em => inboxBlock em) getMsg refs with
      | .error e => e
      | .ok blocks =>
          if blocks.isEmpty then "No messages found" else pyJoin "\n" blocks

/-! ## Lemmas: base64url codec -/

theorem b64Val_sixChar : ∀ n, n < 64 → b64Val (b64SixChar n) = some n := by decide

theorem b64SixChar_ne_pad : ∀ n, n < 64 → b64SixChar n ≠ '=' := by decide

/-- Decoding inverts encoding on genuine byte strings. -/
theorem b64urlDecode_encode : ∀ bs : List Nat, (∀ b ∈ bs, b < 256) →
    b64urlDecode (b64urlEncode bs) = some bs := by
  intro bs
  induction bs using b64urlEncode.induct with
  | case1 => intro _; rfl
  | case2 b1 =>
      intro h
      have hb1 : b1 < 256 := h b1 (by simp)
      have h1 : b1 / 4 < 64 := by omega
      have h2 : b1 % 4 * 16 < 64 := by omega
      simp only [b64urlEncode, b64urlDecode]
      simp [b64Val_sixChar _ h1, b64Val_sixChar _ h2]
      omega
  | case3 b1 b2 =>
      intro h
      have hb1 : b1 < 256 := h b1 (by simp)
      have hb2 : b2 < 256 := h b2 (by simp)
      have h1 : b1 / 4 < 64 := by omega
      have h2 : b1 % 4 * 16 + b2 / 16 < 64 := by omega
      have h3 : b2 % 16 * 4 < 64 := by omega
      simp only [b64urlEncode, b64urlDecode]
      simp [b64Val_sixChar _ h1, b64Val_sixChar _ h2, b64Val_sixChar _ h3,
        b64SixChar_ne_pad _ h3]
      omega
  | case4 b1 b2 b3 rest ih =>
      intro h
      have hb1 : b1 < 256 := h b1 (by simp)
      have hb2 : b2 < 256 := h b2 (by simp)
      have hb3 : b3 < 256 := h b3 (by simp)
      have hrest : ∀ b ∈ rest, b < 256 := fun b hb => h b (by simp [hb])
      have h1 : b1 / 4 < 64 := by omega
      have h2 : b1 % 4 * 16 + b2 / 16 < 64 := by omega
      have h3 : b2 % 16 * 4 + b3 / 64 < 64 := by omega
      have h4 : b3 % 64 < 64 := by omega
      simp only [b64urlEncode, b64urlDecode]
      simp [b64Val_sixChar _ h1, b64Val_sixChar _ h2, b64Val_sixChar _ h3,
        b64Val_sixChar _ h4, b64SixChar_ne_pad _ h3, b64SixChar_ne_pad _ h4,
        ih hrest]
      refine ⟨by omega, by omega, by omega⟩

/-! ## Lemmas: text encoding and message parsing -/

theorem utf8DecodeAux_ascii : ∀ (bs : List Nat) (fuel : Nat), bs.length ≤ fuel →
    (∀ b ∈ bs, b < 128) → utf8DecodeAux fuel bs = some (bs.map Char.ofNat) := by
  intro bs
  induction bs with
  | nil => intro fuel _ _; cases fuel <;> rfl
  | cons b rest ih =>
      intro fuel hf h
      have hb : b < 128 := h b (by simp)
      have hr : ∀ x ∈ rest, x < 128 := fun x hx => h x (by simp [hx])
      match fuel, hf with
      | f + 1, hf =>
        rw [utf8DecodeAux.eq_def]
        simp [hb, ih f (by simpa using hf) hr]

theorem utf8Decode_ascii (bs : List Nat) (h : ∀ b ∈ bs, b < 128) :
    utf8Decode bs = some (bs.map Char.ofNat) :=
  utf8DecodeAux_ascii bs bs.length (le_refl _) h

theorem strBytes_lt_256 (s : String) (h : asciiStr s) : ∀ b ∈ strBytes s, b < 256 := by
  intro b hb
  simp only [strBytes, List.mem_map] at hb
  obtain ⟨c, hc, rfl⟩ := hb
  have := h c hc
  omega

theorem strBytes_lt_128 (s : String) (h : asciiStr s) : ∀ b ∈ strBytes s, b < 128 := by
  intro b hb
  simp only [strBytes, List.mem_map] at hb
  obtain ⟨c, hc, rfl⟩ := hb
  exact h c hc

theorem utf8Decode_strBytes (s : String) (h : asciiStr s) :
    utf8Decode (strBytes s) = some s.data := by
  rw [utf8Decode_ascii _ (strBytes_lt_128 s h)]
  simp [strBytes, List.map_map, Function.comp_def, Char.ofNat_toNat]

theorem mkString_data (s : String) : (⟨s.data⟩ : String) = s := rfl

theorem asciiStr_append (s t : String) :
    asciiStr (s ++ t) ↔ asciiStr s ∧ asciiStr t := by
  simp [asciiStr, String.data_append, List.mem_append, or_imp, forall_and]

theorem stripLeading_append : ∀ (p l : List Char), stripLeading p (p ++ l) = some l := by
  intro p
  induction p with
  | nil => intro l; rfl
  | cons c cs ih => intro l; simp [stripLeading, ih]

theorem takeLine_append (xs : List Char) (h : '\n' ∉ xs) :
    ∀ r, takeLine (xs ++ '\n' :: r) = some (xs, r) := by
  induction xs with
  | nil => intro r; simp [takeLine]
  | cons c cs ih =>
      intro r
      have hc : ¬(c = '\n') := by
        intro hez; exact h (by simp [hez])
      have hcs : '\n' ∉ cs := fun hx => h (by simp [hx])
      simp [takeLine, hc, ih hcs]

/-- Parsing inverts the MIME flattening of `send_email` whenever the two
header values are single-line. -/
theorem parseMessage_mime (recipient subject body : String)
    (h1 : '\n' ∉ recipient.data) (h2 : '\n' ∉ subject.data) :
    parseMessage (mimeAsString recipient subject body) = some (recipient, subject, body) := by
  have hd : (mimeAsString recipient subject body).data
      = mimeHeaderBlock.data ++
        (recipient.data ++ '\n' ::
          ("subject: ".data ++ (subject.data ++ '\n' :: '\n' :: body.data))) := by
    simp [mimeAsString, String.data_append, List.append_assoc]
  unfold parseMessage
  rw [hd]
  simp only [stripLeading_append, takeLine_append _ h1, takeLine_append _ h2,
    mkString_data]

/-! ## Lemmas: handler plumbing -/

theorem get_gmail_service_ok (acq : AcquireResult) (c : Creds)
    (h : acq.creds = .ok c) : get_gmail_service acq = .ok () := by
  simp [get_gmail_service, h]

theorem get_calendar_service_ok (acq : AcquireResult) (c : Creds)
    (h : acq.creds = .ok c) : get_calendar_service acq = .ok () := by
  simp [get_calendar_service, h]

theorem fetchLoop_ok (bf : MsgRef → Email → String) (fetch : String → Email) :
    ∀ refs : List MsgRef,
      fetchLoop bf (fun i => .ok (fetch i)) refs =
        .ok (refs.map fun r => bf r (fetch r.id)) := by
  intro refs
  induction refs with
  | nil => rfl
  | cons r rs ih => simp [fetchLoop, ih]

theorem formatEvents_ok : ∀ events : List CalEvent,
    (∀ e ∈ events, e.summary ≠ none) →
    formatEvents events =
      .ok (events.map fun e => eventBlock (e.summary.getD "") e.start) := by
  intro events
  induction events with
  | nil => intro _; rfl
  | cons e es ih =>
      intro h
      have he : e.summary ≠ none := h e (by simp)
      have hes : ∀ x ∈ es, x.summary ≠ none := fun x hx => h x (by simp [hx])
      cases hs : e.summary with
      | none => exact absurd hs he
      | some s => simp [formatEvents, hs, ih hes]

theorem formatEvents_missing : ∀ events : List CalEvent,
    (∃ e ∈ events, e.summary = none) →
    ∃ msg, formatEvents events = .error msg := by
  intro events
  induction events with
  | nil => intro h; simp at h
  | cons e es ih =>
      intro h
      cases hs : e.summary with
      | none => exact ⟨"KeyError: summary", by simp [formatEvents, hs]⟩
      | some s =>
          obtain ⟨x, hx, hxn⟩ := h
          rcases List.mem_cons.mp hx with rfl | hmem
          · exact absurd hs (by simp [hxn])
          · obtain ⟨m, hm⟩ := ih ⟨x, hmem, hxn⟩
            exact ⟨m, by simp [formatEvents, hs, hm]⟩

theorem pyJoin_cons_data (b : String) (bs : List String) :
    ∃ t : List Char, (pyJoin "\n" (b :: bs)).data = b.data ++ t := by
  cases bs with
  | nil => exact ⟨[], by simp [pyJoin]⟩
  | cons c cs =>
      refine ⟨'\n' :: (pyJoin "\n" (c :: cs)).data, ?_⟩
      simp [pyJoin, String.data_append, List.append_assoc,
        show "\n".data = ['\n'] from rfl]

theorem pyJoin_ne_of_head (b lit : String) (bs : List String) (c : Char)
    (hb : b.data.head? = some c) (hlit : lit.data.head? ≠ some c) :
    pyJoin "\n" (b :: bs) ≠ lit := by
  obtain ⟨t, ht⟩ := pyJoin_cons_data b bs
  intro he
  apply hlit
  rw [← he, ht]
  rcases hdata : b.data with _ | ⟨x, xs⟩
  · rw [hdata] at hb; cases hb
  · rw [hdata] at hb
    simpa using hb

theorem searchBlock_head (i : String) (e : Email) :
    (searchBlock i e).data.head? = some 'I' := by
  simp only [searchBlock, String.data_append]
  rfl

theorem eventBlock_head (s : String) (t : EventTime) :
    (eventBlock s t).data.head? = some 'E' := by
  simp only [eventBlock, String.data_append]
  rfl

/-! ## Claim theorems -/

/-- Claim C1: every tool handler (send_email, search_emails,
get_email_content, list_events, create_event) returns, for every input
and every outcome of credential acquisition and the provider calls, a
dict carrying exactly one of the result and error fields, never both
and never neither; exceptions are folded into the error envelope and
never escape. -/
theorem C1_envelope_exactly_one
    (recipient subject body query email_id summary start_time end_time description : String)
    (max_results : Nat) (acq : AcquireResult)
    (send : List Char → Except String SendResponse)
    (listMsgs : String → Nat → Except String (List MsgRef))
    (getMsg : String → Except String Email)
    (listEvents : Nat → Except String (List CalEvent))
    (insert : String → EventBody → Except String InsertResponse) :
    (send_email recipient subject body acq send).exactlyOne ∧
    (search_emails query max_results acq listMsgs getMsg).exactlyOne ∧
    (get_email_content email_id acq getMsg).exactlyOne ∧
    (list_events max_results acq listEvents).exactlyOne ∧
    (create_event summary start_time end_time description acq insert).exactlyOne := by
  refine ⟨?_, ?_, ?_, ?_, ?_⟩
  · unfold send_email get_gmail_service
    repeat' split
    all_goals simp [PyDict.exactlyOne, PyDict.mkResult, PyDict.mkError]
  · unfold search_emails get_gmail_service
    repeat' split
    all_goals simp [PyDict.exactlyOne, PyDict.mkResult, PyDict.mkError]
  · unfold get_email_content get_gmail_service
    repeat' split
    all_goals simp [PyDict.exactlyOne, PyDict.mkResult, PyDict.mkError]
  · unfold list_events get_calendar_service
    repeat' split
    all_goals simp [PyDict.exactlyOne, PyDict.mkResult, PyDict.mkError]
  · unfold create_event get_calendar_service
    repeat' split
    all_goals simp [PyDict.exactlyOne, PyDict.mkResult, PyDict.mkError]

/-- Claim C2: an expired persisted record carrying a refresh token is
refreshed exactly once with no interactive flow; an absent record
triggers the interactive flow exactly once; and every successful
creation or refresh writes the new record to the store before the
credentials are returned. -/
theorem C2_get_credentials_lifecycle :
    (∀ (c : Creds) (refreshFn : Creds → Except String Creds)
        (flowRun : Except String Creds),
        c.expired = true → pyTruthy c.refresh_token = true →
        (get_credentials (some c) refreshFn flowRun).refreshCalls = 1 ∧
        (get_credentials (some c) refreshFn flowRun).flowCalls = 0 ∧
        (∀ c2, refreshFn c = .ok c2 →
          (get_credentials (some c) refreshFn flowRun).creds = .ok c2 ∧
          (get_credentials (some c) refreshFn flowRun).store = some c2)) ∧
    (∀ (refreshFn : Creds → Except String Creds) (flowRun : Except String Creds),
        (get_credentials none refreshFn flowRun).flowCalls = 1 ∧
        (get_credentials none refreshFn flowRun).refreshCalls = 0 ∧
        (∀ c2, flowRun = .ok c2 →
          (get_credentials none refreshFn flowRun).creds = .ok c2 ∧
          (get_credentials none refreshFn flowRun).store = some c2)) ∧
    (∀ (store : Option Creds) (refreshFn : Creds → Except String Creds)
        (flowRun : Except String Creds) (c2 : Creds),
        (get_credentials store refreshFn flowRun).refreshCalls +
          (get_credentials store refreshFn flowRun).flowCalls ≠ 0 →
        (get_credentials store refreshFn flowRun).creds = .ok c2 →
        (get_credentials store refreshFn flowRun).store = some c2) := by
  refine ⟨?_, ?_, ?_⟩
  · intro c refreshFn flowRun hexp htok
    have hval : c.valid = false := by simp [Creds.valid, hexp]
    rcases hr : refreshFn c with e | c2 <;>
      simp [get_credentials, hval, hexp, htok, hr]
  · intro refreshFn flowRun
    rcases hf : flowRun with e | c2 <;> simp [get_credentials, hf]
  · intro store refreshFn flowRun c2
    unfold get_credentials
    repeat' split
    all_goals simp_all

/-- Witness for C2 at a concrete expired-with-refresh-token record and
a concrete absent record. -/
theorem C2_get_credentials_lifecycle_witness :
    (⟨some "t", true, some "r"⟩ : Creds).expired = true ∧
    pyTruthy (⟨some "t", true, some "r"⟩ : Creds).refresh_token = true ∧
    ((get_credentials (some ⟨some "t", true, some "r"⟩)
        (fun _ => .ok ⟨some "t2", false, some "r"⟩)
        (.error "consent denied")).refreshCalls = 1 ∧
      (get_credentials (some ⟨some "t", true, some "r"⟩)
        (fun _ => .ok ⟨some "t2", false, some "r"⟩)
        (.error "consent denied")).flowCalls = 0 ∧
      (get_credentials (some ⟨some "t", true, some "r"⟩)
        (fun _ => .ok ⟨some "t2", false, some "r"⟩)
        (.error "consent denied")).store = some ⟨some "t2", false, some "r"⟩) ∧
    (get_credentials none (fun c => .ok c)
        (.ok ⟨some "t3", false, none⟩)).flowCalls = 1 ∧
    (get_credentials none (fun c => .ok c)
        (.ok ⟨some "t3", false, none⟩)).store = some ⟨some "t3", false, none⟩ := by
  have h := C2_get_credentials_lifecycle
  have h1 := h.1 ⟨some "t", true, some "r"⟩
    (fun _ => .ok ⟨some "t2", false, some "r"⟩) (.error "consent denied")
    (by decide) (by decide)
  have h2 := h.2.1 (fun c => .ok c) (.ok ⟨some "t3", false, none⟩)
  exact ⟨rfl, by decide, ⟨h1.1, h1.2.1, (h1.2.2 _ rfl).2⟩, h2.1, (h2.2.2 _ rfl).2⟩

/-- Claim C4: with the provider calls succeeding, search_emails and
list_events return their no-items literal precisely when the list call
yields zero items, and otherwise one formatted block per listed item in
provider order. -/
theorem C4_empty_iff_literal
    (query : String) (max_results : Nat) (acq : AcquireResult) (c : Creds)
    (hacq : acq.creds = .ok c)
    (refs : List MsgRef) (fetch : String → Email)
    (events : List CalEvent) (hsum : ∀ e ∈ events, e.summary ≠ none) :
    search_emails query max_results acq (fun _ _ => .ok refs) (fun i => .ok (fetch i)) =
      .mkResult (if refs = [] then "No emails found"
        else pyJoin "\n" (refs.map fun r => searchBlock r.id (fetch r.id))) ∧
    (refs ≠ [] →
      pyJoin "\n" (refs.map fun r => searchBlock r.id (fetch r.id)) ≠ "No emails found") ∧
    list_events max_results acq (fun _ => .ok events) =
      .mkResult (if events = [] then "No upcoming events found"
        else pyJoin "\n" (events.map fun e => eventBlock (e.summary.getD "") e.start)) ∧
    (events ≠ [] →
      pyJoin "\n" (events.map fun e => eventBlock (e.summary.getD "") e.start) ≠
        "No upcoming events found") := by
  refine ⟨?_, ?_, ?_, ?_⟩
  · cases refs with
    | nil => simp [search_emails, get_gmail_service, hacq, fetchLoop_ok]
    | cons r rs => simp [search_emails, get_gmail_service, hacq, fetchLoop_ok]
  · intro hne
    cases refs with
    | nil => exact absurd rfl hne
    | cons r rs =>
        simp only [List.map_cons]
        exact pyJoin_ne_of_head _ _ _ 'I' (searchBlock_head _ _) (by decide)
  · cases events with
    | nil => simp [list_events, get_calendar_service, hacq]
    | cons e es =>
        have hf := formatEvents_ok (e :: es) hsum
        simp [list_events, get_calendar_service, hacq, hf]
  · intro hne
    cases events with
    | nil => exact absurd rfl hne
    | cons e es =>
        simp only [List.map_cons]
        exact pyJoin_ne_of_head _ _ _ 'E' (eventBlock_head _ _) (by decide)

/-- Counterexample to C4 as literally stated: a provider list response
with one event that lacks the summary field is a non-empty list
response for which list_events produces no result string at all — the
call yields an error envelope instead of one formatted block per
item. -/
theorem C4_counterexample :
    (fun _ => .ok [⟨none, ⟨some "2024-01-01T09:00:00", none⟩⟩] :
        Nat → Except String (List CalEvent)) 3 =
      .ok [⟨none, ⟨some "2024-01-01T09:00:00", none⟩⟩] ∧
    ([(⟨none, ⟨some "2024-01-01T09:00:00", none⟩⟩ : CalEvent)] ≠ []) ∧
    (list_events 3 ⟨.ok ⟨some "t", false, none⟩, none, 0, 0⟩
        (fun _ => .ok [⟨none, ⟨some "2024-01-01T09:00:00", none⟩⟩])).result = none ∧
    (list_events 3 ⟨.ok ⟨some "t", false, none⟩, none, 0, 0⟩
        (fun _ => .ok [⟨none, ⟨some "2024-01-01T09:00:00", none⟩⟩])).error.isSome := by
  refine ⟨rfl, by decide, ?_, ?_⟩ <;>
    simp [list_events, get_calendar_service, formatEvents, PyDict.mkError,
      PyDict.mkResult]

/-- Witness for C4 at a one-message, one-event provider response. -/
theorem C4_empty_iff_literal_witness :
    ((⟨.ok ⟨some "t", false, none⟩, none, 0, 0⟩ : AcquireResult).creds =
        .ok ⟨some "t", false, none⟩ ∧
      (∀ e ∈ [(⟨some "Standup", ⟨some "2024-01-01T09:00:00", none⟩⟩ : CalEvent)],
        e.summary ≠ none)) ∧
    search_emails "is:unread" 10 ⟨.ok ⟨some "t", false, none⟩, none, 0, 0⟩
        (fun _ _ => .ok [⟨"id1"⟩])
        (fun _ => .ok ⟨⟨[⟨"From", "x@y.z"⟩], none, ⟨none⟩⟩⟩) =
      .mkResult (if ([(⟨"id1"⟩ : MsgRef)] : List MsgRef) = [] then "No emails found"
        else pyJoin "\n" ([(⟨"id1"⟩ : MsgRef)].map fun r =>
          searchBlock r.id ⟨⟨[⟨"From", "x@y.z"⟩], none, ⟨none⟩⟩⟩)) ∧
    list_events 3 ⟨.ok ⟨some "t", false, none⟩, none, 0, 0⟩
        (fun _ => .ok [⟨some "Standup", ⟨some "2024-01-01T09:00:00", none⟩⟩]) =
      .mkResult (if ([(⟨some "Standup", ⟨some "2024-01-01T09:00:00", none⟩⟩ : CalEvent)] :
            List CalEvent) = [] then "No upcoming events found"
        else pyJoin "\n" ([(⟨some "Standup", ⟨some "2024-01-01T09:00:00", none⟩⟩ : CalEvent)].map
          fun e => eventBlock (e.summary.getD "") e.start)) := by
  have h := C4_empty_iff_literal "is:unread" 10
    ⟨.ok ⟨some "t", false, none⟩, none, 0, 0⟩ ⟨some "t", false, none⟩ rfl
    [⟨"id1"⟩] (fun _ => ⟨⟨[⟨"From", "x@y.z"⟩], none, ⟨none⟩⟩⟩)
    [⟨some "Standup", ⟨some "2024-01-01T09:00:00", none⟩⟩] (by decide)
  exact ⟨⟨rfl, by decide⟩, h.1, h.2.2.1⟩

/-- Claim C5: get_email_content selects the body payload from the first
part when the payload is multipart and from the top-level body
otherwise, base64url-decodes it to text and returns the
From/Subject/Content result string; an empty or missing data field
yields the literal content text No content. -/
theorem C5_get_email_content
    (email_id : String) (acq : AcquireResult) (c : Creds)
    (hacq : acq.creds = .ok c)
    (em : Email) (getMsg : String → Except String Email)
    (hg : getMsg email_id = .ok em) :
    (∀ q ps, em.payload.parts = some (q :: ps) →
      contentOf em.payload = .ok (q.body.data.getD "")) ∧
    (em.payload.parts = none →
      contentOf em.payload = .ok (em.payload.body.data.getD "")) ∧
    (∀ content, contentOf em.payload = .ok content →
      (content = "" →
        get_email_content email_id acq getMsg =
          .mkResult (emailHeaderText em ++ "No content")) ∧
      (∀ bs cs, content ≠ "" → b64urlDecode content.data = some bs →
        utf8Decode bs = some cs →
        get_email_content email_id acq getMsg =
          .mkResult (emailHeaderText em ++ (⟨cs⟩ : String)))) := by
  refine ⟨?_, ?_, ?_⟩
  · intro q ps hp; simp [contentOf, hp]
  · intro hp; simp [contentOf, hp]
  · intro content hc
    constructor
    · intro he
      simp [get_email_content, get_gmail_service, hacq, hg, hc, decodedContent, he]
    · intro bs cs hne hb hu
      simp [get_email_content, get_gmail_service, hacq, hg, hc, decodedContent,
        hne, hb, hu]

/-- Witness for C5 at a multipart message whose first part carries the
base64url text SGk= (the word Hi). -/
theorem C5_get_email_content_witness :
    contentOf (⟨[], some [⟨⟨some "SGk="⟩⟩], ⟨none⟩⟩ : Payload) = .ok "SGk=" ∧
    get_email_content "e1" ⟨.ok ⟨some "t", false, none⟩, none, 0, 0⟩
        (fun _ => .ok ⟨⟨[], some [⟨⟨some "SGk="⟩⟩], ⟨none⟩⟩⟩) =
      .mkResult (emailHeaderText ⟨⟨[], some [⟨⟨some "SGk="⟩⟩], ⟨none⟩⟩⟩ ++
        (⟨['H', 'i']⟩ : String)) := by
  have h := C5_get_email_content "e1" ⟨.ok ⟨some "t", false, none⟩, none, 0, 0⟩
    ⟨some "t", false, none⟩ rfl ⟨⟨[], some [⟨⟨some "SGk="⟩⟩], ⟨none⟩⟩⟩
    (fun _ => .ok ⟨⟨[], some [⟨⟨some "SGk="⟩⟩], ⟨none⟩⟩⟩) rfl
  have hco := h.1 ⟨⟨some "SGk="⟩⟩ [] rfl
  exact ⟨hco, (h.2.2 "SGk=" hco).2 [72, 105] ['H', 'i']
    (by decide) (by decide) (by decide)⟩

/-- Claim C6: for any header set, extraction in search_emails,
get_email_content and the inbox resource yields the literal default
No Subject when no Subject header is present — whatever the From
header holds — and Unknown when no From header is present — whatever
the Subject header holds — never raising; and in list_events the
displayed time falls back from dateTime to the all-day date. -/
theorem C6_fallback_defaults (em : Email) :
    ((∀ h ∈ em.payload.headers, h.name ≠ "Subject") →
      findHeader em.payload.headers "Subject" "No Subject" = "No Subject" ∧
      (∀ i, searchBlock i em = "ID: " ++ i ++ "\nFrom: " ++
        findHeader em.payload.headers "From" "Unknown" ++
        "\nSubject: No Subject\n---") ∧
      inboxBlock em = "From: " ++ findHeader em.payload.headers "From" "Unknown" ++
        "\nSubject: No Subject\n---" ∧
      emailHeaderText em = "From: " ++ findHeader em.payload.headers "From" "Unknown" ++
        "\nSubject: No Subject\n\nContent:\n") ∧
    ((∀ h ∈ em.payload.headers, h.name ≠ "From") →
      findHeader em.payload.headers "From" "Unknown" = "Unknown" ∧
      (∀ i, searchBlock i em = "ID: " ++ i ++ "\nFrom: Unknown\nSubject: " ++
        findHeader em.payload.headers "Subject" "No Subject" ++ "\n---") ∧
      inboxBlock em = "From: Unknown\nSubject: " ++
        findHeader em.payload.headers "Subject" "No Subject" ++ "\n---" ∧
      emailHeaderText em = "From: Unknown\nSubject: " ++
        findHeader em.payload.headers "Subject" "No Subject" ++ "\n\nContent:\n") ∧
    (∀ s d : String, eventStart ⟨none, some d⟩ = d ∧
      eventBlock s ⟨none, some d⟩ = "Event: " ++ s ++ "\nTime: " ++ d ++ "\n---") ∧
    (∀ (s : String) (max_results : Nat) (acq : AcquireResult) (c : Creds) (d : String),
      acq.creds = .ok c →
      list_events max_results acq (fun _ => .ok [⟨some s, ⟨none, some d⟩⟩]) =
        .mkResult ("Event: " ++ s ++ "\nTime: " ++ d ++ "\n---")) := by
  refine ⟨?_, ?_, ?_, ?_⟩
  · intro hS
    have h1 : findHeader em.payload.headers "Subject" "No Subject" = "No Subject" := by
      have hfS : em.payload.headers.find? (fun h => h.name == "Subject") = none :=
        List.find?_eq_none.mpr fun x hx => by simpa using hS x hx
      simp [findHeader, hfS]
    refine ⟨h1, ?_, ?_, ?_⟩
    · intro i
      rw [searchBlock, h1, String.append_assoc, String.append_assoc]
      congr 1
    · rw [inboxBlock, h1, String.append_assoc, String.append_assoc]
      congr 1
    · rw [emailHeaderText, h1, String.append_assoc, String.append_assoc]
      congr 1
  · intro hF
    have h2 : findHeader em.payload.headers "From" "Unknown" = "Unknown" := by
      have hfF : em.payload.headers.find? (fun h => h.name == "From") = none :=
        List.find?_eq_none.mpr fun x hx => by simpa using hF x hx
      simp [findHeader, hfF]
    refine ⟨h2, ?_, ?_, ?_⟩
    · intro i
      rw [searchBlock, h2]
      congr 1
      congr 1
      rw [String.append_assoc, String.append_assoc]
      congr 1
    · rw [inboxBlock, h2]
      congr 1
    · rw [emailHeaderText, h2]
      congr 1
  · intro s d
    refine ⟨rfl, ?_⟩
    rw [eventBlock]
    rfl
  · intro s max_results acq c d hacq
    have hf := formatEvents_ok [⟨some s, ⟨none, some d⟩⟩] (by simp)
    simp [list_events, get_calendar_service, hacq, hf, pyJoin, eventBlock,
      eventStart]

/-- Witness for C6 at a message that carries only a From header (the
Subject fallback), a message that carries only a Subject header (the
From fallback) and a single all-day event. -/
theorem C6_fallback_defaults_witness :
    ((∀ h ∈ [(⟨"From", "x@y.z"⟩ : Header)], h.name ≠ "Subject") ∧
      (∀ h ∈ [(⟨"Subject", "Hi"⟩ : Header)], h.name ≠ "From")) ∧
    inboxBlock ⟨⟨[⟨"From", "x@y.z"⟩], none, ⟨none⟩⟩⟩ =
      "From: " ++ findHeader [⟨"From", "x@y.z"⟩] "From" "Unknown" ++
        "\nSubject: No Subject\n---" ∧
    inboxBlock ⟨⟨[⟨"Subject", "Hi"⟩], none, ⟨none⟩⟩⟩ =
      "From: Unknown\nSubject: " ++
        findHeader [⟨"Subject", "Hi"⟩] "Subject" "No Subject" ++ "\n---" ∧
    list_events 3 ⟨.ok ⟨some "t", false, none⟩, none, 0, 0⟩
        (fun _ => .ok [⟨some "Standup", ⟨none, some "2024-01-01"⟩⟩]) =
      .mkResult ("Event: " ++ "Standup" ++ "\nTime: " ++ "2024-01-01" ++ "\n---") := by
  have hA := (C6_fallback_defaults ⟨⟨[⟨"From", "x@y.z"⟩], none, ⟨none⟩⟩⟩).1 (by decide)
  have hB := (C6_fallback_defaults ⟨⟨[⟨"Subject", "Hi"⟩], none, ⟨none⟩⟩⟩).2.1 (by decide)
  have hD := (C6_fallback_defaults ⟨⟨[], none, ⟨none⟩⟩⟩).2.2.2 "Standup" 3
    ⟨.ok ⟨some "t", false, none⟩, none, 0, 0⟩ ⟨some "t", false, none⟩
    "2024-01-01" rfl
  exact ⟨⟨by decide, by decide⟩, hA.2.2.1, hB.2.2.1, hD⟩

/-- Claim C7: create_event inserts one event on the primary calendar
whose endpoints both carry the UTC timezone and the given dateTime
values, and on success returns the provider link in the result
string. -/
theorem C7_create_event_utc
    (summary start_time end_time description : String)
    (acq : AcquireResult) (c : Creds) (hacq : acq.creds = .ok c)
    (insert : String → EventBody → Except String InsertResponse)
    (r : InsertResponse) (link : String)
    (hins : insert "primary" (eventBodyOf summary start_time end_time description) =
      .ok r)
    (hlink : r.htmlLink = some link) :
    (eventBodyOf summary start_time end_time description).start.timeZone = "UTC" ∧
    (eventBodyOf summary start_time end_time description).endSpec.timeZone = "UTC" ∧
    (eventBodyOf summary start_time end_time description).start.dateTime = start_time ∧
    (eventBodyOf summary start_time end_time description).endSpec.dateTime = end_time ∧
    (eventBodyOf summary start_time end_time description).summary = summary ∧
    (eventBodyOf summary start_time end_time description).description = description ∧
    create_event summary start_time end_time description acq insert =
      .mkResult ("Event created: " ++ link) := by
  refine ⟨rfl, rfl, rfl, rfl, rfl, rfl, ?_⟩
  simp [create_event, get_calendar_service, hacq, hins, pyStrOpt, hlink]

/-- Witness for C7 at the Standup scenario of the specification. -/
theorem C7_create_event_utc_witness :
    ((⟨.ok ⟨some "t", false, none⟩, none, 0, 0⟩ : AcquireResult).creds =
        .ok ⟨some "t", false, none⟩) ∧
    (eventBodyOf "Standup" "2024-01-01T09:00:00" "2024-01-01T09:15:00" "").start.timeZone =
      "UTC" ∧
    (eventBodyOf "Standup" "2024-01-01T09:00:00" "2024-01-01T09:15:00" "").endSpec.timeZone =
      "UTC" ∧
    create_event "Standup" "2024-01-01T09:00:00" "2024-01-01T09:15:00" ""
        ⟨.ok ⟨some "t", false, none⟩, none, 0, 0⟩
        (fun _ _ => .ok ⟨some "https://cal/evt1"⟩) =
      .mkResult ("Event created: " ++ "https://cal/evt1") := by
  have h := C7_create_event_utc "Standup" "2024-01-01T09:00:00" "2024-01-01T09:15:00" ""
    ⟨.ok ⟨some "t", false, none⟩, none, 0, 0⟩ ⟨some "t", false, none⟩ rfl
    (fun _ _ => .ok ⟨some "https://cal/evt1"⟩) ⟨some "https://cal/evt1"⟩
    "https://cal/evt1" rfl rfl
  exact ⟨rfl, h.1, h.2.1, h.2.2.2.2.2.2⟩

/-- Claim C8: the inbox resource returns plain text, not an envelope:
the concatenated From/Subject blocks or the no-messages literal on
success, and the bare error message string on any caught exception. -/
theorem C8_resource_plain_text
    (acq : AcquireResult)
    (listCall : Nat → Except String (List MsgRef))
    (getMsg : String → Except String Email) :
    (∀ e, acq.creds = .error e → get_emails acq listCall getMsg = e) ∧
    (∀ c e, acq.creds = .ok c → listCall 10 = .error e →
      get_emails acq listCall getMsg = e) ∧
    (∀ c refs e, acq.creds = .ok c → listCall 10 = .ok refs →
      fetchLoop (fun _ em => inboxBlock em) getMsg refs = .error e →
      get_emails acq listCall getMsg = e) ∧
    (∀ c, acq.creds = .ok c → listCall 10 = .ok [] →
      get_emails acq listCall getMsg = "No messages found") ∧
    (∀ c (refs : List MsgRef) (fetch : String → Email), acq.creds = .ok c →
      listCall 10 = .ok refs → refs ≠ [] → getMsg = (fun i => .ok (fetch i)) →
      get_emails acq listCall getMsg =
        pyJoin "\n" (refs.map fun r => inboxBlock (fetch r.id))) := by
  refine ⟨?_, ?_, ?_, ?_, ?_⟩
  · intro e he; simp [get_emails, get_gmail_service, he]
  · intro c e hc hl; simp [get_emails, get_gmail_service, hc, hl]
  · intro c refs e hc hl hf; simp [get_emails, get_gmail_service, hc, hl, hf]
  · intro c hc hl; simp [get_emails, get_gmail_service, hc, hl, fetchLoop]
  · intro c refs fetch hc hl hne hg
    subst hg
    cases refs with
    | nil => exact absurd rfl hne
    | cons r rs => simp [get_emails, get_gmail_service, hc, hl, fetchLoop_ok]

/-- Witness for C8 at a failing acquisition and at an empty inbox. -/
theorem C8_resource_plain_text_witness :
    ((⟨.error "boom", none, 0, 0⟩ : AcquireResult).creds = .error "boom") ∧
    get_emails ⟨.error "boom", none, 0, 0⟩ (fun _ => .ok []) (fun _ => .error "x") =
      "boom" ∧
    get_emails ⟨.ok ⟨some "t", false, none⟩, none, 0, 0⟩ (fun _ => .ok [])
        (fun _ => .error "x") = "No messages found" := by
  refine ⟨rfl, ?_, ?_⟩
  · exact (C8_resource_plain_text ⟨.error "boom", none, 0, 0⟩ (fun _ => .ok [])
      (fun _ => .error "x")).1 "boom" rfl
  · exact (C8_resource_plain_text ⟨.ok ⟨some "t", false, none⟩, none, 0, 0⟩
      (fun _ => .ok []) (fun _ => .error "x")).2.2.2.1 ⟨some "t", false, none⟩ rfl rfl

/-- Claim C9: a non-empty event list in which some item lacks the
summary field makes list_events return an error envelope for the whole
call: summary presence is assumed, unlike headers and times. -/
theorem C9_missing_summary_error
    (max_results : Nat) (acq : AcquireResult) (c : Creds)
    (hacq : acq.creds = .ok c)
    (events : List CalEvent)
    (hmiss : ∃ e ∈ events, e.summary = none) :
    ∃ msg, list_events max_results acq (fun _ => .ok events) = .mkError msg := by
  cases events with
  | nil => simp at hmiss
  | cons e es =>
      obtain ⟨m, hm⟩ := formatEvents_missing (e :: es) hmiss
      exact ⟨m, by simp [list_events, get_calendar_service, hacq, hm]⟩

/-- Witness for C9 at a single summary-less event. -/
theorem C9_missing_summary_error_witness :
    ((⟨.ok ⟨some "t", false, none⟩, none, 0, 0⟩ : AcquireResult).creds =
        .ok ⟨some "t", false, none⟩ ∧
      (∃ e ∈ [(⟨none, ⟨none, none⟩⟩ : CalEvent)], e.summary = none)) ∧
    ∃ msg, list_events 3 ⟨.ok ⟨some "t", false, none⟩, none, 0, 0⟩
        (fun _ => .ok [⟨none, ⟨none, none⟩⟩]) = .mkError msg :=
  ⟨⟨rfl, by decide⟩,
    C9_missing_summary_error 3 ⟨.ok ⟨some "t", false, none⟩, none, 0, 0⟩
      ⟨some "t", false, none⟩ rfl [⟨none, ⟨none, none⟩⟩] (by decide)⟩

/-- Claim C10: header-name matching is exact, case-sensitive string
equality against Subject and From: every message whose headers carry
these names only in some other casing (for instance SUBJECT and from)
yields the fallback values No Subject and Unknown in search_emails,
get_email_content and the inbox resource, even though the headers are
present. -/
theorem C10_case_sensitive_headers
    (em : Email)
    (hS : ∀ h ∈ em.payload.headers, h.name ≠ "Subject")
    (hF : ∀ h ∈ em.payload.headers, h.name ≠ "From")
    (hSc : ∃ h ∈ em.payload.headers, h.name.data.map Char.toLower = "subject".data)
    (hFc : ∃ h ∈ em.payload.headers, h.name.data.map Char.toLower = "from".data)
    (email_id : String) (acq : AcquireResult) (c : Creds)
    (hacq : acq.creds = .ok c)
    (getMsg : String → Except String Email) (hg : getMsg email_id = .ok em) :
    findHeader em.payload.headers "Subject" "No Subject" = "No Subject" ∧
    findHeader em.payload.headers "From" "Unknown" = "Unknown" ∧
    (∀ i, searchBlock i em =
      "ID: " ++ i ++ "\nFrom: Unknown\nSubject: No Subject\n---") ∧
    inboxBlock em = "From: Unknown\nSubject: No Subject\n---" ∧
    emailHeaderText em = "From: Unknown\nSubject: No Subject\n\nContent:\n" ∧
    (em.payload.parts = none → em.payload.body.data = none →
      get_email_content email_id acq getMsg =
        .mkResult "From: Unknown\nSubject: No Subject\n\nContent:\nNo content") := by
  have h1 : findHeader em.payload.headers "Subject" "No Subject" = "No Subject" := by
    have hfS : em.payload.headers.find? (fun h => h.name == "Subject") = none :=
      List.find?_eq_none.mpr fun x hx => by simpa using hS x hx
    simp [findHeader, hfS]
  have h2 : findHeader em.payload.headers "From" "Unknown" = "Unknown" := by
    have hfF : em.payload.headers.find? (fun h => h.name == "From") = none :=
      List.find?_eq_none.mpr fun x hx => by simpa using hF x hx
    simp [findHeader, hfF]
  have hhd : emailHeaderText em = "From: Unknown\nSubject: No Subject\n\nContent:\n" := by
    rw [emailHeaderText, h1, h2]
    apply String.ext
    simp only [String.data_append, List.append_assoc]
    decide
  refine ⟨h1, h2, ?_, ?_, hhd, ?_⟩
  · intro i
    rw [searchBlock, h1, h2]
    apply String.ext
    simp only [String.data_append, List.append_assoc]
    congr 1
  · rw [inboxBlock, h1, h2]
    apply String.ext
    simp only [String.data_append, List.append_assoc]
    decide
  · intro hp hb
    simp [get_email_content, get_gmail_service, hacq, hg, contentOf, hp, hb,
      decodedContent, hhd]

/-- Witness for C10 at a message carrying SUBJECT and from headers. -/
theorem C10_case_sensitive_headers_witness :
    ((∀ h ∈ [(⟨"SUBJECT", "Re: hi"⟩ : Header), ⟨"from", "x@y.z"⟩], h.name ≠ "Subject") ∧
      (∀ h ∈ [(⟨"SUBJECT", "Re: hi"⟩ : Header), ⟨"from", "x@y.z"⟩], h.name ≠ "From") ∧
      (∃ h ∈ [(⟨"SUBJECT", "Re: hi"⟩ : Header), ⟨"from", "x@y.z"⟩],
        h.name.data.map Char.toLower = "subject".data) ∧
      (∃ h ∈ [(⟨"SUBJECT", "Re: hi"⟩ : Header), ⟨"from", "x@y.z"⟩],
        h.name.data.map Char.toLower = "from".data)) ∧
    inboxBlock ⟨⟨[⟨"SUBJECT", "Re: hi"⟩, ⟨"from", "x@y.z"⟩], none, ⟨none⟩⟩⟩ =
      "From: Unknown\nSubject: No Subject\n---" ∧
    get_email_content "e1" ⟨.ok ⟨some "t", false, none⟩, none, 0, 0⟩
        (fun _ => .ok ⟨⟨[⟨"SUBJECT", "Re: hi"⟩, ⟨"from", "x@y.z"⟩], none, ⟨none⟩⟩⟩) =
      .mkResult "From: Unknown\nSubject: No Subject\n\nContent:\nNo content" := by
  have h := C10_case_sensitive_headers
    ⟨⟨[⟨"SUBJECT", "Re: hi"⟩, ⟨"from", "x@y.z"⟩], none, ⟨none⟩⟩⟩
    (by decide) (by decide) (by decide) (by decide) "e1"
    ⟨.ok ⟨some "t", false, none⟩, none, 0, 0⟩ ⟨some "t", false, none⟩ rfl
    (fun _ => .ok ⟨⟨[⟨"SUBJECT", "Re: hi"⟩, ⟨"from", "x@y.z"⟩], none, ⟨none⟩⟩⟩) rfl
  exact ⟨⟨by decide, by decide, by decide, by decide⟩, h.2.2.2.1,
    h.2.2.2.2.2 rfl rfl⟩

end GmailMcp
